import Mathlib

set_option maxRecDepth 100000

/-!
Verification development for the pipewire virtual-camera producer
(`src/src/main.rs`).  The repository wraps the external SPA pod-builder
library in a `Builder` type with a growth (overflow) callback, builds two
concrete pod objects (a format object and a buffers object) through the
`builder_add!` macro, and reacts to `param_changed` events by sending
those pods to the session manager.  The shallow embedding below models:

* bytes as `Nat` (each conceptually `< 256`), buffers as `List Nat`;
* the builder state (`PodBuilder`): vec contents, the builder's recorded
  buffer size, the write cursor and the stack of open object frames;
* `Builder.overflow`, the repository's growth hook, translated from
  `src/src/main.rs` lines 41-60;
* the raw-write / push / pop primitives of the external pod-builder
  library, which is not part of this repository's sources; those are
  modelled from the spec's wire-format and growth-protocol description
  (sections 4.1 and 6) and carry a `Modelled from the spec:` note;
* the `builder_add!` macro expansion (`addProps`, `builderAdd`), the two
  concrete property lists, and the `param_changed` dispatcher;
* a matching decoder (`parsePod`) for round-trip statements.
-/

/-- Typed values written inside an object, exactly the three shapes the
repository's `builder_add!` invocations use: identifier, rectangle,
fraction. -/
inductive Value where
  | id (v : Nat)
  | rect (w h : Nat)
  | frac (num denom : Nat)
deriving DecidableEq

/-- State of the pod builder: `data` models the `Vec<u8>` contents,
`size` the builder's recorded buffer length (`spa_pod_builder.size`),
`offset` the write cursor, and `frames` the stack of open object frames
(start offsets, innermost first). -/
structure PodBuilder where
  data : List Nat
  size : Nat
  offset : Nat
  frames : List Nat
deriving DecidableEq

/-- A growth hook: given the current storage and the needed total size,
returns the new storage together with the new recorded size, or `none`
when growth fails. -/
def Hook : Type := List Nat → Nat → Option (List Nat × Nat)

/-- Embedding of `Builder::overflow` (src/src/main.rs lines 41-60): the
callback asserts that the requested size strictly exceeds the current
vec length (`none` models the `assert!` panic), resizes the vec to
`size` filling new bytes with zero, records the vec's new length as the
builder's size, and returns the C value `0` for success. -/
def Builder.overflow (data : List Nat) (size : Nat) : Option ((List Nat × Nat) × Int) :=
  if data.length < size then
    some ((data ++ List.replicate (size - data.length) 0,
           (data ++ List.replicate (size - data.length) 0).length), 0)
  else none

/-- The repository's growth hook, i.e. `Builder::overflow` seen as a
`Hook` (the C return value dropped: `some` is the `0` success return). -/
def repoHook : Hook := fun d s => (Builder.overflow d s).map (fun x => x.1)

/-- A hook that always refuses to grow; used to express that a run needs
no growth at all. -/
def failHook : Hook := fun _ _ => none

/-- The errno the raw write reports when growth fails (ENOSPC, the
spec's `EncodeError::Overflow`). -/
def ENOSPC : Nat := 28

/-- Overwrite the bytes of `d` at offset `off` with `bs` (in-place store
into the backing storage). -/
def storeBytes (d : List Nat) (off : Nat) (bs : List Nat) : List Nat :=
  d.take off ++ bs ++ d.drop (off + bs.length)

/-- Little-endian serialization of a 32-bit word (native endianness of
the reference platform). -/
def u32le (n : Nat) : List Nat :=
  [n % 256, n / 256 % 256, n / 65536 % 256, n / 16777216 % 256]

/-- Modelled from the spec: the raw write primitive of the external
pod-builder library (libspa, not part of this repository's sources).
Per the spec's growth protocol (section 4.1), when a write would exceed
the current recorded capacity the builder requests growth to the needed
size through the registered hook and then resumes the write against the
(possibly relocated) storage; a failed growth aborts with the overflow
error.  On success the bytes are stored at the cursor and the cursor
advances. -/
def writeRaw (hook : Hook) (b : PodBuilder) (bs : List Nat) : Except Nat PodBuilder :=
  if b.offset + bs.length ≤ b.size then
    .ok { b with data := storeBytes b.data b.offset bs, offset := b.offset + bs.length }
  else
    match hook b.data (b.offset + bs.length) with
    | some (d, s) =>
        .ok { data := storeBytes d b.offset bs, size := s,
              offset := b.offset + bs.length, frames := b.frames }
    | none => .error ENOSPC

/-- Wire bytes of a typed value, per the spec's wire format (section 6):
`[tag:u32][len:u32]` then the payload, padded to 8-byte alignment
(identifier = 4-byte code plus 4 padding bytes; rectangle and fraction =
two u32, already aligned).  Tags: identifier 3, rectangle 10,
fraction 11. -/
def valueBytes : Value → List Nat
  | .id v => u32le 3 ++ u32le 4 ++ u32le v ++ u32le 0
  | .rect w h => u32le 10 ++ u32le 8 ++ u32le w ++ u32le h
  | .frac num denom => u32le 11 ++ u32le 8 ++ u32le num ++ u32le denom

/-- One typed-value write (the macro's `Id`/`Rectangle`/`Fraction`
arms, src/src/main.rs lines 97-132, delegating to the library's
primitive writers). -/
def addValue (hook : Hook) (b : PodBuilder) (v : Value) : Except Nat PodBuilder :=
  writeRaw hook b (valueBytes v)

/-- `Builder::add_prop` (lines 134-142): writes the property header
`[key:u32][flags:u32]`. -/
def add_prop (hook : Hook) (b : PodBuilder) (key flags : Nat) : Except Nat PodBuilder :=
  writeRaw hook b (u32le key ++ u32le flags)

/-- `Builder::push_object` (lines 144-164): writes the object header
`[size:u32][type-tag:u32][id:u32]` with a placeholder size, and opens a
frame recording the header's start offset. -/
def push_object (hook : Hook) (b : PodBuilder) (ty pid : Nat) :
    Except Nat (PodBuilder × Nat) :=
  (writeRaw hook b (u32le 0 ++ u32le ty ++ u32le pid)).map
    (fun b' => ({ b' with frames := b.offset :: b'.frames }, b.offset))

/-- Unwind the frame stack to the parent of the given frame (the close
operation follows the given frame's parent link; it performs no
innermost-frame check). -/
def popFrames : List Nat → Nat → List Nat
  | [], _ => []
  | f :: rest, h => if f = h then rest else popFrames rest h

/-- `Builder::pop` (lines 166-170): closes the object frame.  The
wrapper returns no result, so no failure can be reported; per the spec's
frame description (section 3) the close backpatches the object's total
byte length (everything after the size field) at the frame's start
offset, and the frame stack unwinds to the given frame's parent. -/
def pop (b : PodBuilder) (frame : Nat) : PodBuilder :=
  { b with data := storeBytes b.data frame (u32le (b.offset - frame - 4)),
           frames := popFrames b.frames frame }

/-- The property loop of the `builder_add!` macro (lines 198-207): for
each `key => value`, `add_prop` then the typed-value write, breaking out
with the first error. -/
def addProps (hook : Hook) (b : PodBuilder) : List (Nat × Value) → Except Nat PodBuilder
  | [] => .ok b
  | (k, v) :: rest =>
    match add_prop hook b k 0 with
    | .error e => .error e
    | .ok b1 =>
      match addValue hook b1 v with
      | .error e => .error e
      | .ok b2 => addProps hook b2 rest

/-- The `Object(...)` arm of the `builder_add!` macro (lines 185-213):
push the object frame, write the properties (first error breaks out),
then pop the frame. -/
def builderAdd (hook : Hook) (b : PodBuilder) (ty pid : Nat)
    (props : List (Nat × Value)) : Except Nat PodBuilder :=
  match push_object hook b ty pid with
  | .error e => .error e
  | .ok (b1, frame) =>
    match addProps hook b1 props with
    | .error e => .error e
    | .ok b2 => .ok (pop b2 frame)

/-- A fresh builder over `Vec::with_capacity(512)`: the vec's *length*
is 0, so the builder's recorded size starts at 0 and every write grows
the buffer. -/
def emptyBuilder : PodBuilder := ⟨[], 0, 0, []⟩

/-- A builder over a buffer pre-sized to `n` zero bytes (a vec of
length `n`), as `Builder::new` records it. -/
def presized (n : Nat) : PodBuilder := ⟨List.replicate n 0, n, 0, []⟩

/-- The object type tag the source passes for the format object
(src/src/main.rs line 305, comment `SPA_TYPE_OBJECT_Format`). -/
def SPA_TYPE_OBJECT_Format : Nat := 262147

/-- Modelled from the spec: the session manager's published object-type
constant for `ParamBuffers` (SPA object-type 0x40004), which section 6
requires bit-exactly; it is distinct from `Format` (0x40003). -/
def SPA_TYPE_OBJECT_ParamBuffers : Nat := 262148

/-- The format-object property list (the `builder_add!` invocation at
src/src/main.rs lines 302-314 and identically at lines 461-473):
media type video (2), media subtype raw (1), pixel format BGRA (12),
frame rectangle 640x480, frame rate 30/1. -/
def formatProps : List (Nat × Value) :=
  [(1, .id 2), (2, .id 1), (131073, .id 12),
   (131075, .rect 640 480), (131076, .frac 30 1)]

/-- The buffers-object property list (the `builder_add!` invocation at
src/src/main.rs lines 372-384): keys 1-5 are buffer count, block count,
block size, stride, alignment. -/
def buffersProps : List (Nat × Value) :=
  [(1, .id 1), (2, .id 1228800), (3, .id 1228800), (4, .id 30), (5, .id 0)]

/-- Build the format pod exactly as the source does: fresh zero-length
buffer, object type 262147, object id 3 (`SPA_PARAM_EnumFormat`). -/
def buildFormatPodWith (hook : Hook) : Except Nat (List Nat) :=
  (builderAdd hook emptyBuilder 262147 3 formatProps).map (fun b => b.data)

/-- Build the buffers pod exactly as the source does (param == 7
branch): fresh zero-length buffer, object type 262147 (the code's
comment claims `SPA_TYPE_OBJECT_ParamBuffers`), object id 7. -/
def buildBuffersPodWith (hook : Hook) : Except Nat (List Nat) :=
  (builderAdd hook emptyBuilder 262147 7 buffersProps).map (fun b => b.data)

/-- The format pod with the repository's growth hook. -/
def buildFormatPod : Except Nat (List Nat) := buildFormatPodWith repoHook

/-- The buffers pod with the repository's growth hook. -/
def buildBuffersPod : Except Nat (List Nat) := buildBuffersPodWith repoHook

/-- The concrete bytes of the format pod. -/
def theFormatBytes : List Nat := buildFormatPod.toOption.getD []

/-- The concrete bytes of the buffers pod. -/
def theBuffersBytes : List Nat := buildBuffersPod.toOption.getD []

/-- Observable outcome of one `param_changed` invocation: a pod sent
through `update_params`, an empty `update_params` call, an early return
after a failed pod build, or no response at all. -/
inductive Response where
  | sent (bytes : List Nat)
  | sentEmpty
  | buildFailed (e : Nat)
  | ignored
deriving DecidableEq

/-- The `param_changed` dispatcher (src/src/main.rs lines 280-409),
generic in the growth hook: param 15 builds and sends the format pod
(early return on build failure), param 3 only logs ("format already
advertised upfront", no response), param 4 calls `update_params` with an
empty list, param 7 builds and sends the buffers pod, anything else is
logged and ignored.  No negotiation state is read or written. -/
def paramChangedWith (hook : Hook) (param : Nat) : Response :=
  if param = 15 then
    match buildFormatPodWith hook with
    | .ok bs => .sent bs
    | .error e => .buildFailed e
  else if param = 3 then .ignored
  else if param = 4 then .sentEmpty
  else if param = 7 then
    match buildBuffersPodWith hook with
    | .ok bs => .sent bs
    | .error e => .buildFailed e
  else .ignored

/-- The dispatcher with the repository's growth hook. -/
def param_changed (param : Nat) : Response := paramChangedWith repoHook param

/-- The process-callback copy (src/src/main.rs lines 418-452): given the
chunk size of the destination region, the destination bytes and the
fixed source frame, copy `min(chunk, source length)` source bytes over
the destination's first bytes.  Returns the new destination contents and
the copied count; the copy itself has no error outcome. -/
def processCopy (chunkSize : Nat) (dest src : List Nat) : List Nat × Nat :=
  let copySize := min chunkSize src.length
  (src.take copySize ++ dest.drop copySize, copySize)

/-- Read a little-endian u32 off the front of a byte list. -/
def parseU32 (bs : List Nat) : Option (Nat × List Nat) :=
  match bs with
  | b0 :: b1 :: b2 :: b3 :: rest =>
      some (b0 + 256 * b1 + 65536 * b2 + 16777216 * b3, rest)
  | _ => none

/-- Decode one typed value (`[tag][len][payload][padding]`). -/
def parseValue (bs : List Nat) : Option (Value × List Nat) := do
  let (tag, bs) ← parseU32 bs
  let (len, bs) ← parseU32 bs
  if tag = 3 then
    if len = 4 then do
      let (v, bs) ← parseU32 bs
      let (_, bs) ← parseU32 bs
      pure (.id v, bs)
    else none
  else if tag = 10 then
    if len = 8 then do
      let (w, bs) ← parseU32 bs
      let (h, bs) ← parseU32 bs
      pure (.rect w h, bs)
    else none
  else if tag = 11 then
    if len = 8 then do
      let (num, bs) ← parseU32 bs
      let (denom, bs) ← parseU32 bs
      pure (.frac num denom, bs)
    else none
  else none

/-- Decode a property sequence (`[key][flags][value]` repeated) to the
end of the input; `fuel` bounds the recursion by the input length. -/
def parseProps : Nat → List Nat → Option (List (Nat × Value))
  | _, [] => some []
  | 0, _ :: _ => none
  | fuel + 1, bs => do
    let (key, bs) ← parseU32 bs
    let (_flags, bs) ← parseU32 bs
    let (v, bs) ← parseValue bs
    let rest ← parseProps fuel bs
    pure ((key, v) :: rest)

/-- Decode a whole object pod `[size][type-tag][id][properties]`,
checking that the backpatched size covers everything after the size
field (section 6). -/
def parsePod (bs : List Nat) : Option (Nat × Nat × List (Nat × Value)) := do
  let (sz, r) ← parseU32 bs
  let (ty, r) ← parseU32 r
  let (pid, r) ← parseU32 r
  if sz = r.length + 8 then do
    let props ← parseProps bs.length r
    pure (ty, pid, props)
  else none

/-! ### Helper lemmas about the byte store and the raw write -/

theorem storeBytes_length (d bs : List Nat) (off : Nat)
    (h : off + bs.length ≤ d.length) :
    (storeBytes d off bs).length = d.length := by
  simp only [storeBytes, List.length_append, List.length_take, List.length_drop]
  omega

theorem storeBytes_at_end (d z bs : List Nat) (h : z.length = bs.length) :
    storeBytes (d ++ z) d.length bs = d ++ bs := by
  unfold storeBytes
  rw [List.take_left, List.drop_append, ← h, List.drop_length]
  try simp

theorem storeBytes_into_zeros (d bs : List Nat) (m : Nat) :
    storeBytes (d ++ List.replicate m 0) d.length bs
      = (d ++ bs) ++ List.replicate (m - bs.length) 0 := by
  unfold storeBytes
  rw [List.take_left, List.drop_append, List.drop_replicate]
  try simp [List.append_assoc]

theorem storeBytes_append_left (d z bs : List Nat) (s : Nat)
    (h : s + bs.length ≤ d.length) :
    storeBytes (d ++ z) s bs = storeBytes d s bs ++ z := by
  unfold storeBytes
  rw [List.take_append_of_le_length (by omega), List.drop_append_of_le_length h]
  simp [List.append_assoc]

/-- With the repository's hook, a raw write from a tight builder (recorded
size and cursor both equal to the storage length, as every write leaves
them) always succeeds and appends the bytes, growing the storage to the
exact needed size. -/
theorem writeRaw_repoHook (b : PodBuilder) (bs : List Nat)
    (hsz : b.size = b.data.length) (hoff : b.offset = b.data.length) :
    writeRaw repoHook b bs =
      .ok ⟨b.data ++ bs, b.data.length + bs.length,
           b.data.length + bs.length, b.frames⟩ := by
  rcases b with ⟨d, sz, off, fr⟩
  simp only at hsz hoff
  subst hsz hoff
  unfold writeRaw
  dsimp only
  rcases Nat.eq_zero_or_pos bs.length with h0 | h0
  · have hbs : bs = [] := List.eq_nil_of_length_eq_zero h0
    subst hbs
    simp [storeBytes]
  · have hk : d.length + bs.length - d.length = bs.length := by omega
    have hov : repoHook d (d.length + bs.length)
        = some (d ++ List.replicate bs.length 0, d.length + bs.length) := by
      simp only [repoHook, Builder.overflow]
      rw [if_pos (by omega), hk]
      simp
    rw [if_neg (by omega)]
    simp only [hov]
    rw [storeBytes_at_end d (List.replicate bs.length 0) bs (by simp)]

theorem u32le_length (n : Nat) : (u32le n).length = 4 := by simp [u32le]

theorem valueBytes_length (v : Value) : (valueBytes v).length = 16 := by
  cases v <;> simp [valueBytes, u32le]

/-- Simulation relation between the growth run `g` (over an initially
empty buffer, hence always tight: recorded size and cursor equal the
storage length) and the pre-sized run `p` (over a buffer of `N` zero
bytes): same cursor, same frames, the pre-sized storage is the grown
storage padded with zeros, and every open frame's backpatch slot lies
below the cursor. -/
def Sim (N : Nat) (g p : PodBuilder) : Prop :=
  g.size = g.data.length ∧ g.offset = g.data.length ∧
  p.offset = g.offset ∧ p.frames = g.frames ∧ p.size = N ∧
  p.data = g.data ++ List.replicate (N - g.offset) 0 ∧
  g.offset ≤ N ∧ ∀ f ∈ g.frames, f + 4 ≤ g.offset

/-- One raw write preserves the simulation: the growth run grows and
appends, the pre-sized run stores in place without consulting its hook,
and both end at the same cursor with identical written bytes. -/
theorem writeRaw_sim {N : Nat} {g p : PodBuilder} (hook : Hook) (bs : List Nat)
    (h : Sim N g p) (hfit : g.offset + bs.length ≤ N) :
    writeRaw repoHook g bs =
      .ok ⟨g.data ++ bs, g.offset + bs.length, g.offset + bs.length, g.frames⟩ ∧
    writeRaw hook p bs =
      .ok ⟨(g.data ++ bs) ++ List.replicate (N - (g.offset + bs.length)) 0, N,
           g.offset + bs.length, g.frames⟩ ∧
    Sim N ⟨g.data ++ bs, g.offset + bs.length, g.offset + bs.length, g.frames⟩
        ⟨(g.data ++ bs) ++ List.replicate (N - (g.offset + bs.length)) 0, N,
         g.offset + bs.length, g.frames⟩ := by
  obtain ⟨h1, h2, h3, h4, h5, h6, h7, h8⟩ := h
  refine ⟨?_, ?_, ?_⟩
  · rw [writeRaw_repoHook g bs h1 h2, h2]
  · unfold writeRaw
    rw [h3, h4, h5, h6]
    rw [if_pos (by omega)]
    rw [h2, storeBytes_into_zeros]
    have hc : N - g.data.length - bs.length = N - (g.data.length + bs.length) := by
      omega
    rw [hc, ← h2]
  · refine ⟨by simp [h2], by simp [h2], rfl, rfl, rfl, rfl, hfit, ?_⟩
    intro f hfr
    have := h8 f hfr
    show f + 4 ≤ g.offset + bs.length
    omega

theorem popFrames_subset (fr : List Nat) (h f : Nat)
    (hf : f ∈ popFrames fr h) : f ∈ fr := by
  induction fr with
  | nil =>
    rw [popFrames] at hf
    exact (List.not_mem_nil f hf).elim
  | cons a rest ih =>
    by_cases hah : a = h
    · rw [popFrames, if_pos hah] at hf
      exact List.mem_cons_of_mem a hf
    · rw [popFrames, if_neg hah] at hf
      exact List.mem_cons_of_mem a (ih hf)

/-- Closing a frame below the cursor preserves the simulation: both runs
backpatch the same four bytes at the same offset and unwind the same
frame stack. -/
theorem pop_sim {N : Nat} {g p : PodBuilder} (h : Sim N g p) (f : Nat)
    (hf : f + 4 ≤ g.offset) :
    Sim N (pop g f) (pop p f) ∧ (pop g f).data.length = g.data.length ∧
    (pop g f).offset = g.offset ∧ (pop g f).frames = popFrames g.frames f := by
  obtain ⟨h1, h2, h3, h4, h5, h6, h7, h8⟩ := h
  have hlen : (storeBytes g.data f (u32le (g.offset - f - 4))).length
      = g.data.length := by
    apply storeBytes_length
    rw [u32le_length]
    omega
  unfold pop
  dsimp only
  rw [h3, h4, h5, h6]
  refine ⟨⟨?_, ?_, rfl, rfl, rfl, ?_, h7, ?_⟩, hlen, rfl, rfl⟩
  · rw [hlen, h1]
  · rw [hlen, ← h2]
  · rw [storeBytes_append_left g.data _ _ f (by rw [u32le_length]; omega)]
  · intro f' hf'
    exact h8 f' (popFrames_subset g.frames f f' hf')

/-- Opening a frame below the cursor preserves the simulation. -/
theorem sim_push_frame {N : Nat} {g p : PodBuilder} (h : Sim N g p) (f : Nat)
    (hf : f + 4 ≤ g.offset) :
    Sim N { g with frames := f :: g.frames } { p with frames := f :: p.frames } := by
  obtain ⟨h1, h2, h3, h4, h5, h6, h7, h8⟩ := h
  refine ⟨h1, h2, h3, by rw [h4], h5, h6, h7, ?_⟩
  intro f' hf'
  rcases List.mem_cons.mp hf' with hc | hc
  · rw [hc]
    exact hf
  · exact h8 f' hc

/-- The property loop preserves the simulation: both runs succeed, write
the same bytes, keep their frames, and advance the cursor by 24 bytes
per property. -/
theorem addProps_sim {N : Nat} (hook : Hook) (props : List (Nat × Value)) :
    ∀ g p, Sim N g p → g.offset + 24 * props.length ≤ N →
    ∃ g' p', addProps repoHook g props = .ok g' ∧ addProps hook p props = .ok p' ∧
      Sim N g' p' ∧ g'.offset = g.offset + 24 * props.length ∧
      g'.frames = g.frames := by
  induction props with
  | nil =>
    intro g p h hfit
    exact ⟨g, p, rfl, rfl, h, by simp, rfl⟩
  | cons kv rest ih =>
    rcases kv with ⟨k, v⟩
    intro g p h hfit
    rw [List.length_cons] at hfit
    have hlen8 : (u32le k ++ u32le 0).length = 8 := by simp [u32le]
    obtain ⟨hw1g, hw1p, hsim1⟩ :=
      writeRaw_sim hook (u32le k ++ u32le 0) h (by rw [hlen8]; omega)
    obtain ⟨hw2g, hw2p, hsim2⟩ :=
      writeRaw_sim hook (valueBytes v) hsim1
        (by dsimp only; rw [valueBytes_length, hlen8]; omega)
    obtain ⟨g', p', hg', hp', hsim', hoff', hfr'⟩ :=
      ih _ _ hsim2 (by dsimp only; rw [valueBytes_length, hlen8]; omega)
    refine ⟨g', p', ?_, ?_, hsim', ?_, ?_⟩
    · simp only [addProps, add_prop, addValue, hw1g, hw2g, hg']
    · simp only [addProps, add_prop, addValue, hw1p, hw2p, hp']
    · dsimp only at hoff'
      rw [valueBytes_length, hlen8] at hoff'
      rw [List.length_cons]
      omega
    · dsimp only at hfr'
      exact hfr'

/-- Closed form of `push_object` on a successful raw write. -/
theorem push_object_eq {hook : Hook} {b b' : PodBuilder} {ty pid : Nat}
    (hw : writeRaw hook b (u32le 0 ++ u32le ty ++ u32le pid) = .ok b') :
    push_object hook b ty pid
      = .ok ({ b' with frames := b.offset :: b'.frames }, b.offset) := by
  simp only [push_object, hw, Except.map]

/-- Closed form of `builderAdd` when the push and the property loop
succeed. -/
theorem builderAdd_eq_of {hook : Hook} {b b1 b2 : PodBuilder} {f ty pid : Nat}
    {props : List (Nat × Value)}
    (h1 : push_object hook b ty pid = .ok (b1, f))
    (h2 : addProps hook b1 props = .ok b2) :
    builderAdd hook b ty pid props = .ok (pop b2 f) := by
  simp only [builderAdd, h1, h2]

/-- Building a whole object from a fresh zero-length buffer (the growth
run) and from a buffer pre-sized to `N ≥ 12 + 24·|props|` zero bytes:
both succeed, the grown storage is exactly the encoded object, and the
pre-sized storage is the same bytes padded with zeros.  The pre-sized
run's hook is arbitrary — in particular it may always fail — so the
pre-sized run performs no growth at all. -/
theorem builderAdd_sim (hook : Hook) (ty pid : Nat) (props : List (Nat × Value))
    (N : Nat) (hN : 12 + 24 * props.length ≤ N) :
    ∃ g p, builderAdd repoHook emptyBuilder ty pid props = .ok g ∧
      builderAdd hook (presized N) ty pid props = .ok p ∧
      g.data.length = 12 + 24 * props.length ∧
      g.offset = g.data.length ∧ g.frames = [] ∧ p.frames = [] ∧
      p.data = g.data ++ List.replicate (N - g.offset) 0 ∧
      p.data.length = N := by
  have hsim0 : Sim N emptyBuilder (presized N) := by
    refine ⟨rfl, rfl, rfl, rfl, rfl, by simp [emptyBuilder, presized],
      by simp [emptyBuilder], by simp [emptyBuilder]⟩
  have hlen12 : (u32le 0 ++ u32le ty ++ u32le pid).length = 12 := by simp [u32le]
  obtain ⟨hwg, hwp, hsim1⟩ :=
    writeRaw_sim hook (u32le 0 ++ u32le ty ++ u32le pid) hsim0
      (by simp only [emptyBuilder]; rw [hlen12]; omega)
  have hsim1f := sim_push_frame hsim1 0 (by dsimp only; rw [hlen12]; simp [emptyBuilder])
  obtain ⟨g2, p2, hg2, hp2, hsim2, hoff2, hfr2⟩ :=
    addProps_sim hook props _ _ hsim1f
      (by dsimp only; simp only [emptyBuilder]; rw [hlen12]; omega)
  have hoffg2 : g2.offset = 12 + 24 * props.length := by
    dsimp only at hoff2
    simp only [emptyBuilder] at hoff2
    rw [hlen12] at hoff2
    omega
  have hfrg2 : g2.frames = [0] := by
    dsimp only at hfr2
    exact hfr2
  obtain ⟨hsimP, hlenP, hoffP, hfrP⟩ := pop_sim hsim2 0 (by omega)
  obtain ⟨k1, k2, k3, k4, k5, k6, k7, k8⟩ := hsimP
  have hpg := push_object_eq hwg
  have hpp := push_object_eq hwp
  rw [show emptyBuilder.offset = 0 from rfl] at hpg
  rw [show (presized N).offset = 0 from rfl] at hpp
  refine ⟨pop g2 0, pop p2 0, ?_, ?_, ?_, ?_, ?_, ?_, ?_, ?_⟩
  · exact builderAdd_eq_of hpg hg2
  · exact builderAdd_eq_of hpp hp2
  · rw [← k2, hoffP, hoffg2]
  · rw [← k2]
  · rw [hfrP, hfrg2]
    simp [popFrames]
  · rw [k4, hfrP, hfrg2]
    simp [popFrames]
  · exact k6
  · rw [k6, List.length_append, List.length_replicate, ← k2, hoffP, hoffg2]
    omega

/-- A successful raw write never changes the frame stack. -/
theorem writeRaw_frames {hook : Hook} {b b' : PodBuilder} {bs : List Nat}
    (h : writeRaw hook b bs = .ok b') : b'.frames = b.frames := by
  unfold writeRaw at h
  by_cases hc : b.offset + bs.length ≤ b.size
  · rw [if_pos hc] at h
    cases h
    rfl
  · rw [if_neg hc] at h
    cases hh : hook b.data (b.offset + bs.length) with
    | none => rw [hh] at h; cases h
    | some ds =>
      rcases ds with ⟨d, s⟩
      rw [hh] at h
      cases h
      rfl

/-- A successful property loop never changes the frame stack. -/
theorem addProps_frames {hook : Hook} (props : List (Nat × Value)) :
    ∀ {b b' : PodBuilder}, addProps hook b props = .ok b' → b'.frames = b.frames := by
  induction props with
  | nil =>
    intro b b' h
    cases h
    rfl
  | cons kv rest ih =>
    rcases kv with ⟨k, v⟩
    intro b b' h
    rw [addProps] at h
    cases h1 : add_prop hook b k 0 with
    | error e =>
      simp only [h1] at h
      exact Except.noConfusion h
    | ok b1 =>
      simp only [h1] at h
      cases h2 : addValue hook b1 v with
      | error e =>
        simp only [h2] at h
        exact Except.noConfusion h
      | ok b2 =>
        simp only [h2] at h
        simp only [add_prop] at h1
        simp only [addValue] at h2
        rw [ih h, writeRaw_frames h2, writeRaw_frames h1]

/-- A successful object push stacks exactly one new frame at the
pre-push cursor and hands that cursor back as the frame handle. -/
theorem push_object_frames {hook : Hook} {b b1 : PodBuilder} {ty pid f : Nat}
    (h : push_object hook b ty pid = .ok (b1, f)) :
    b1.frames = b.offset :: b.frames ∧ f = b.offset := by
  unfold push_object at h
  cases hw : writeRaw hook b (u32le 0 ++ u32le ty ++ u32le pid) with
  | error e =>
    rw [hw] at h
    exact Except.noConfusion h
  | ok bw =>
    rw [hw] at h
    simp only [Except.map] at h
    rw [Except.ok.injEq, Prod.mk.injEq] at h
    obtain ⟨ha, hb⟩ := h
    constructor
    · rw [← ha]
      dsimp only
      rw [writeRaw_frames hw]
    · exact hb.symm

/-- The builder state after the source's format-object build. -/
def theFormatBuilder : PodBuilder :=
  (builderAdd repoHook emptyBuilder 262147 3 formatProps).toOption.getD emptyBuilder

/-- A builder with two object frames open: outer at offset 0, inner at
offset 12, cursor at 24. -/
def twoFrames : PodBuilder := ⟨List.replicate 24 0, 24, 24, [12, 0]⟩

/-! ### Claims -/

/-- C1: encoding any property sequence from the code's fresh zero-length
buffer — so growth occurs on (every) write, mid-message — produces bytes
identical to encoding the same sequence into a buffer pre-sized to any
`N` at least the total encoded size `12 + 24·|props|`: the pre-sized run
succeeds even under a hook that always refuses growth (hence performs no
growth at all), and its buffer's prefix is exactly the grown run's
output. -/
theorem c1_growth_byte_identical (hook : Hook) (ty pid N : Nat)
    (props : List (Nat × Value)) (hN : 12 + 24 * props.length ≤ N) :
    ∃ g p, builderAdd repoHook emptyBuilder ty pid props = .ok g ∧
      builderAdd hook (presized N) ty pid props = .ok p ∧
      g.data.length = 12 + 24 * props.length ∧
      p.data.take g.data.length = g.data ∧ p.data.length = N := by
  obtain ⟨g, p, h1, h2, h3, h4, h5, h6, h7, h8⟩ :=
    builderAdd_sim hook ty pid props N hN
  refine ⟨g, p, h1, h2, h3, ?_, h8⟩
  rw [h7, List.take_left]

/-- Witness for C1 at the source's format object: pre-sizing to 512
bytes and refusing all growth reproduces the grown encoding. -/
theorem c1_growth_byte_identical_witness :
    ∃ g p, builderAdd repoHook emptyBuilder 262147 3 formatProps = .ok g ∧
      builderAdd failHook (presized 512) 262147 3 formatProps = .ok p ∧
      g.data.length = 12 + 24 * formatProps.length ∧
      p.data.take g.data.length = g.data ∧ p.data.length = 512 :=
  c1_growth_byte_identical failHook 262147 3 512 formatProps (by decide)

/-- C2: after every invocation of `Builder::overflow` with a requested
size strictly above the current length (as its assertion demands), the
recorded size equals the storage's actual new length, all bytes written
before the growth are preserved unchanged as the prefix, every newly
added byte is zero, and the storage now has exactly the requested
size — the bookkeeping refers to the current backing storage, never a
stale one. -/
theorem c2_overflow_refreshes_bookkeeping (d : List Nat) (req : Nat)
    (h : d.length < req) :
    ∃ d', Builder.overflow d req = some ((d', d'.length), 0) ∧
      d'.take d.length = d ∧
      d'.drop d.length = List.replicate (req - d.length) 0 ∧
      d'.length = req := by
  refine ⟨d ++ List.replicate (req - d.length) 0, ?_, ?_, ?_, ?_⟩
  · rw [Builder.overflow, if_pos h]
  · rw [List.take_left]
  · rw [List.drop_left]
  · simp only [List.length_append, List.length_replicate]
    omega

/-- Witness for C2: growing a 3-byte storage to 8 bytes. -/
theorem c2_overflow_refreshes_bookkeeping_witness :
    ([1, 2, 3] : List Nat).length < 8 ∧
    ∃ d', Builder.overflow [1, 2, 3] 8 = some ((d', d'.length), 0) ∧
      d'.take ([1, 2, 3] : List Nat).length = [1, 2, 3] ∧
      d'.drop ([1, 2, 3] : List Nat).length
        = List.replicate (8 - ([1, 2, 3] : List Nat).length) 0 ∧
      d'.length = 8 :=
  ⟨by decide, c2_overflow_refreshes_bookkeeping [1, 2, 3] 8 (by decide)⟩

/-- C3: the buffers object built in the `param == 7` branch decodes with
its five properties in the claimed order (buffer count, block count,
block size, stride, alignment) — but its type tag is 262147, the very
constant the source itself labels `SPA_TYPE_OBJECT_Format` and uses for
the format object, not the session manager's published `ParamBuffers`
constant 262148: the tag is not distinct from the Format object's tag,
contradicting both the claim and the code's own
`SPA_TYPE_OBJECT_ParamBuffers` comment. -/
theorem c3_buffers_tag_is_format_tag :
    parsePod theBuffersBytes = some (262147, 7, buffersProps) ∧
    parsePod theFormatBytes = some (262147, 3, formatProps) ∧
    262147 = SPA_TYPE_OBJECT_Format ∧
    SPA_TYPE_OBJECT_ParamBuffers ≠ SPA_TYPE_OBJECT_Format := by
  exact ⟨by decide, by decide, rfl, by decide⟩

/-- C4: the buffers object encodes exactly 1228800 = 640·480·4 as the
value of its third property (key 3, the block-size identifier). -/
theorem c4_blocksize_value :
    (parsePod theBuffersBytes).map (fun x => x.2.2[2]?)
      = some (some (3, Value.id 1228800)) ∧ 1228800 = 640 * 480 * 4 := by
  exact ⟨by decide, by decide⟩

/-- C5: round-trip — encoding the format object from the fixed input
constants and decoding the bytes with the matching decoder recovers
exactly the tuple (media type video = 2, media subtype raw = 1, pixel
format BGRA = 12, width 640, height 480, rate 30/1), with the five
properties in the fixed authored order. -/
theorem c5_format_roundtrip :
    parsePod theFormatBytes
      = some (SPA_TYPE_OBJECT_Format, 3,
          [(1, Value.id 2), (2, Value.id 1), (131073, Value.id 12),
           (131075, Value.rect 640 480), (131076, Value.frac 30 1)]) := by
  decide

/-- C6 counterexample: param 3 is the EnumFormat parameter id — the
source's own `param == 3` branch labels it `SPA_PARAM_EnumFormat (3)` —
yet the handler sends nothing in response to it, so it is false that
every EnumFormat query is answered by encoding and sending the format
object. -/
theorem c6_enumformat3_unanswered :
    ¬ ∃ bs, param_changed 3 = Response.sent bs := by
  intro hex
  obtain ⟨bs, hbs⟩ := hex
  have h3 : param_changed 3 = Response.ignored := by decide
  rw [h3] at hbs
  exact Response.noConfusion hbs

/-- C6 amended: only a param-15 event (the id under which the handler
actually receives the capability query at runtime) triggers encoding and
sending the format object; a param-3 EnumFormat event produces no
response (the format was already advertised upfront at connect time),
and the handler keeps no negotiation state, so no state transition
occurs. -/
theorem c6_param15_sends_format :
    (∃ bs, buildFormatPod = .ok bs ∧ param_changed 15 = Response.sent bs) ∧
    param_changed 3 = Response.ignored := by
  exact ⟨⟨theFormatBytes, by rfl, by decide⟩, by decide⟩

/-- C7: the build macro fails atomically — an error raised inside a
prefix of the property steps is returned unchanged no matter what steps
follow (the remaining steps are never able to alter the outcome), an
error from the object push short-circuits the whole build with that same
error, and a failed build makes the `param_changed` producer return
early with the error instead of sending any pod. -/
theorem c7_first_error_aborts :
    (∀ (hook : Hook) (b : PodBuilder) (e : Nat) (l₁ l₂ : List (Nat × Value)),
      addProps hook b l₁ = .error e → addProps hook b (l₁ ++ l₂) = .error e) ∧
    (∀ (hook : Hook) (b : PodBuilder) (ty pid e : Nat)
      (props : List (Nat × Value)),
      push_object hook b ty pid = .error e →
      builderAdd hook b ty pid props = .error e) ∧
    (∀ (hook : Hook) (b b1 : PodBuilder) (ty pid e f : Nat)
      (props : List (Nat × Value)),
      push_object hook b ty pid = .ok (b1, f) →
      addProps hook b1 props = .error e →
      builderAdd hook b ty pid props = .error e) ∧
    (∀ (hook : Hook) (e : Nat), buildFormatPodWith hook = .error e →
      paramChangedWith hook 15 = .buildFailed e) ∧
    (∀ (hook : Hook) (e : Nat), buildBuffersPodWith hook = .error e →
      paramChangedWith hook 7 = .buildFailed e) := by
  refine ⟨?_, ?_, ?_, ?_, ?_⟩
  · intro hook b e l₁ l₂
    induction l₁ generalizing b with
    | nil =>
      intro h
      exact Except.noConfusion h
    | cons kv rest ih =>
      rcases kv with ⟨k, v⟩
      intro h
      rw [List.cons_append]
      rw [addProps] at h ⊢
      cases h1 : add_prop hook b k 0 with
      | error e' =>
        simp only [h1] at h ⊢
        exact h
      | ok b1 =>
        simp only [h1] at h ⊢
        cases h2 : addValue hook b1 v with
        | error e' =>
          simp only [h2] at h ⊢
          exact h
        | ok b2 =>
          simp only [h2] at h ⊢
          exact ih b2 h
  · intro hook b ty pid e props h
    simp only [builderAdd, h]
  · intro hook b b1 ty pid e f props h1 h2
    simp only [builderAdd, h1, h2]
  · intro hook e h
    unfold paramChangedWith
    rw [if_pos rfl]
    simp only [h]
  · intro hook e h
    unfold paramChangedWith
    rw [if_neg (by decide), if_neg (by decide), if_neg (by decide), if_pos rfl]
    simp only [h]

/-- Witness for C7: with a hook that refuses growth, the very first
write fails with ENOSPC (28); the error survives appending the full
buffers property list, and both producers return early with it. -/
theorem c7_first_error_aborts_witness :
    addProps failHook emptyBuilder ([(1, Value.id 1)] ++ buffersProps)
      = .error 28 ∧
    paramChangedWith failHook 15 = Response.buildFailed 28 ∧
    paramChangedWith failHook 7 = Response.buildFailed 28 :=
  ⟨c7_first_error_aborts.1 failHook emptyBuilder 28 [(1, Value.id 1)]
      buffersProps (by rfl),
   c7_first_error_aborts.2.2.2.1 failHook 28 (by rfl),
   c7_first_error_aborts.2.2.2.2 failHook 28 (by rfl)⟩

/-- C8 counterexample: closing the outer frame (offset 0) of a builder
whose innermost open frame is at offset 12 is not rejected — `pop` has
no error outcome at all (the wrapper returns no result) — the close is
carried out, backpatching the length 20 at offset 0 and silently
discarding the inner frame. -/
theorem c8_pop_non_innermost_not_rejected :
    (pop twoFrames 0).frames = [] ∧
    (pop twoFrames 0).data.take 4 = u32le 20 ∧
    pop twoFrames 0 ≠ twoFrames := by
  exact ⟨by decide, by decide, by decide⟩

/-- C8 amended: the encoder's close operation cannot reject anything
(`Builder::pop` returns no result and checks nothing), and there is no
`finish()` — the message is read directly from the buffer.  Stack
discipline nevertheless holds by construction for every message the
program builds: the build macro pushes one frame and pops exactly that
frame, so every successful `builderAdd` returns the frame stack exactly
as it found it, leaving no frame open. -/
theorem c8_builderAdd_restores_frames (hook : Hook) (b : PodBuilder)
    (ty pid : Nat) (props : List (Nat × Value)) (b' : PodBuilder)
    (h : builderAdd hook b ty pid props = .ok b') :
    b'.frames = b.frames := by
  unfold builderAdd at h
  cases h1 : push_object hook b ty pid with
  | error e =>
    rw [h1] at h
    exact Except.noConfusion h
  | ok bf =>
    rcases bf with ⟨b1, f⟩
    simp only [h1] at h
    cases h2 : addProps hook b1 props with
    | error e =>
      simp only [h2] at h
      exact Except.noConfusion h
    | ok b2 =>
      simp only [h2] at h
      cases h
      obtain ⟨hb1f, hf⟩ := push_object_frames h1
      have h2f := addProps_frames props h2
      unfold pop
      dsimp only
      rw [h2f, hb1f, hf, popFrames, if_pos rfl]

/-- Witness for C8's amended statement: the source's format-object build
ends with the frame stack it started from (empty). -/
theorem c8_builderAdd_restores_frames_witness :
    theFormatBuilder.frames = emptyBuilder.frames :=
  c8_builderAdd_restores_frames repoHook emptyBuilder 262147 3 formatProps
    theFormatBuilder (by rfl)

/-- C9: on every capture tick the process callback copies exactly
`min(chunk capacity, frame length)` bytes of the source's prefix over
the destination and has no error outcome; in particular a 500000-byte
region against the 1228800-byte frame receives exactly 500000 bytes. -/
theorem c9_process_copies_min :
    (∀ (c : Nat) (dest src : List Nat),
      (processCopy c dest src).2 = min c src.length ∧
      (processCopy c dest src).1.take (min c src.length)
        = src.take (min c src.length)) ∧
    (processCopy 500000 (List.replicate 1228800 0)
      (List.replicate 1228800 1)).2 = 500000 := by
  constructor
  · intro c dest src
    constructor
    · rfl
    · unfold processCopy
      dsimp only
      have hlen : (src.take (min c src.length)).length = min c src.length := by
        simp [List.length_take]
      rw [List.take_append_of_le_length (le_of_eq hlen.symm), List.take_take,
        Nat.min_self]
  · simp only [processCopy]
    rw [List.length_replicate]
    omega

/-- C10: whenever the growth hook is invoked with a requested size
strictly greater than the current storage length — the only way the
builder ever invokes it — it succeeds: it resizes the storage to exactly
the requested size and returns 0.  The hook has no reachable failure
path, so every object build with the repository's hook succeeds and the
"growth failed" overflow outcome is unreachable. -/
theorem c10_overflow_never_fails :
    (∀ (d : List Nat) (req : Nat), d.length < req →
      ∃ d', Builder.overflow d req = some ((d', d'.length), 0) ∧
        d'.length = req) ∧
    (∀ (ty pid : Nat) (props : List (Nat × Value)),
      ∃ g, builderAdd repoHook emptyBuilder ty pid props = .ok g) := by
  constructor
  · intro d req h
    refine ⟨d ++ List.replicate (req - d.length) 0, ?_, ?_⟩
    · rw [Builder.overflow, if_pos h]
    · simp only [List.length_append, List.length_replicate]
      omega
  · intro ty pid props
    obtain ⟨g, p, h1, h2, h3, h4, h5, h6, h7, h8⟩ :=
      builderAdd_sim failHook ty pid props (12 + 24 * props.length)
        (le_refl (12 + 24 * props.length))
    exact ⟨g, h1⟩

/-- Witness for C10: growing a 1-byte storage to 9 bytes succeeds with
return value 0, and the source's buffers-object build succeeds. -/
theorem c10_overflow_never_fails_witness :
    (∃ d', Builder.overflow [5] 9 = some ((d', d'.length), 0) ∧
      d'.length = 9) ∧
    ∃ g, builderAdd repoHook emptyBuilder 262147 7 buffersProps = .ok g :=
  ⟨c10_overflow_never_fails.1 [5] 9 (by decide),
   c10_overflow_never_fails.2 262147 7 buffersProps⟩
